import Mathlib

/-!
Shallow embedding of `src/mcp_server_weather/weather.py` (the weather MCP
server): the retrying HTTP fetcher `make_nws_request`, the alert formatter
`format_alert`, and the two tool handlers `get_alerts` and `get_forecast`,
together with proofs of the specified properties.

Modelling conventions:
* Decoded JSON documents are the inductive `Json`; the Python value `None`
  returned by `make_nws_request` on failure is `Option.none`.
* The network is modelled as a script `env : Nat → Attempt` giving the
  outcome of each HTTP GET attempt (a response with status code, optional
  `Retry-After` header and optional parseable JSON body, or a
  network-level exception).  The fetcher is a pure function of this script
  that also records the backoff sleeps it performs (the unconditional
  random 1-3s throttle before the retry loop is outside the loop and not
  part of the backoff trace).
* Python exceptions that the handlers may raise (KeyError from `d[k]`,
  TypeError/AttributeError from operations on the wrong shape, ValueError
  from `int(...)`) are modelled with `Except PyError`.
-/

namespace Weather

/-- Decoded JSON documents, as returned by `response.json()`. -/
inductive Json where
  | null
  | bool (b : Bool)
  | num (n : Int)
  | str (s : String)
  | arr (elems : List Json)
  | obj (fields : List (String × Json))

mutual

/-- Python equality `==` between two decoded JSON values (structural). -/
def Json.beq : Json → Json → Bool
  | .null, .null => true
  | .bool a, .bool b => a == b
  | .num a, .num b => a == b
  | .str a, .str b => a == b
  | .arr xs, .arr ys => Json.beqList xs ys
  | .obj fs, .obj gs => Json.beqFields fs gs
  | _, _ => false

/-- Elementwise Python equality of two JSON lists. -/
def Json.beqList : List Json → List Json → Bool
  | [], [] => true
  | x :: xs, y :: ys => Json.beq x y && Json.beqList xs ys
  | _, _ => false

/-- Entrywise Python equality of two JSON objects (ordered, as our model
keeps insertion order). -/
def Json.beqFields : List (String × Json) → List (String × Json) → Bool
  | [], [] => true
  | (k, v) :: fs, (l, w) :: gs => k == l && Json.beq v w && Json.beqFields fs gs
  | _, _ => false

end

/-- Python exceptions that the embedded code can raise. -/
inductive PyError where
  | keyError (k : String)
  | typeError
  | attributeError
deriving DecidableEq, Repr

/-- Python truthiness (`bool(x)`) of a decoded JSON value: `None`, `False`,
`0`, the empty string, the empty list and the empty dict are falsy. -/
def Json.truthy : Json → Bool
  | .null => false
  | .bool b => b
  | .num n => n != 0
  | .str s => !s.isEmpty
  | .arr xs => !xs.isEmpty
  | .obj fs => !fs.isEmpty

/-- String wrapped in single quotes (code point 39), as Python repr
renders strings; repr's escaping of quotes inside the string is not
modelled (the claims only exercise scalar and plain string fields). -/
def pyQuote (s : String) : String :=
  String.singleton (Char.ofNat 39) ++ s ++ String.singleton (Char.ofNat 39)

mutual

/-- Python `repr(x)` of a decoded JSON value: strings gain quotes,
containers are rendered structurally. -/
def pyRepr : Json → String
  | .null => "None"
  | .bool true => "True"
  | .bool false => "False"
  | .num n => toString n
  | .str s => pyQuote s
  | .arr xs => "[" ++ pyReprList xs ++ "]"
  | .obj fs => "\x7b" ++ pyReprFields fs ++ "\x7d"

/-- Comma-separated repr of list elements. -/
def pyReprList : List Json → String
  | [] => ""
  | [x] => pyRepr x
  | x :: y :: rest => pyRepr x ++ ", " ++ pyReprList (y :: rest)

/-- Comma-separated repr of dict entries. -/
def pyReprFields : List (String × Json) → String
  | [] => ""
  | [(k, v)] => pyQuote k ++ ": " ++ pyRepr v
  | (k, v) :: p :: rest => pyQuote k ++ ": " ++ pyRepr v ++ ", " ++ pyReprFields (p :: rest)

end

/-- Python string conversion `str(x)` of a decoded JSON value, as used by
f-string interpolation: like repr, except a top-level string stays
unquoted. -/
def pyStr : Json → String
  | .str s => s
  | j => pyRepr j

/-- Python subscripting `d[k]` with a string key: dict lookup raising
KeyError when the key is absent, TypeError on a non-dict. -/
def pySubscript : Json → String → Except PyError Json
  | .obj fs, k =>
      match fs.lookup k with
      | some v => .ok v
      | none => .error (.keyError k)
  | _, _ => .error .typeError

/-- Substring test on character lists, for Python `in` on strings. -/
def charsContain (needle : List Char) : List Char → Bool
  | [] => needle.isEmpty
  | c :: rest => needle.isPrefixOf (c :: rest) || charsContain needle rest

/-- Python membership test `k in d` for a string key: key lookup on a
dict, element membership (by Python equality) on a list, substring test
on a string, TypeError otherwise. -/
def pyContains : Json → String → Except PyError Bool
  | .obj fs, k => .ok (fs.any (fun p => p.1 == k))
  | .arr xs, k => .ok (xs.any (fun x => Json.beq x (.str k)))
  | .str s, k => .ok (charsContain k.toList s.toList)
  | _, _ => .error .typeError

/-- Python `d.get(k, default)` on a dict; AttributeError on a non-dict. -/
def pyDictGet : Json → String → Json → Except PyError Json
  | .obj fs, k, dflt => .ok ((fs.lookup k).getD dflt)
  | _, _, _ => .error .attributeError

/-- Python iteration `for x in v`: list elements, string characters,
dict keys; TypeError otherwise. -/
def pyIter : Json → Except PyError (List Json)
  | .arr xs => .ok xs
  | .str s => .ok (s.toList.map (fun c => .str (String.singleton c)))
  | .obj fs => .ok (fs.map (fun p => .str p.1))
  | _ => .error .typeError

/-- Python slicing `v[:5]`: first five list elements or string characters;
TypeError otherwise. -/
def pySlice5 : Json → Except PyError Json
  | .arr xs => .ok (.arr (xs.take 5))
  | .str s => .ok (.str (String.mk (s.toList.take 5)))
  | _ => .error .typeError

/-- Digit run of a Python integer literal after the first digit: single
underscores are permitted between digits, accumulating the value. -/
def pyDigitsGo : List Char → Nat → Option Nat
  | [], acc => some acc
  | ['_'], _ => none
  | '_' :: c2 :: rest, acc =>
      if c2.isDigit then pyDigitsGo rest (acc * 10 + (c2.toNat - 48)) else none
  | c :: rest, acc =>
      if c.isDigit then pyDigitsGo rest (acc * 10 + (c.toNat - 48)) else none

/-- Nonempty digit run (with optional single underscores between digits)
of a Python integer literal. -/
def pyDigits : List Char → Option Nat
  | [] => none
  | c :: rest => if c.isDigit then pyDigitsGo rest (c.toNat - 48) else none

/-- Surrounding-whitespace strip on a character list, as Python `int(s)`
applies to its argument before parsing. -/
def pyStripChars (cs : List Char) : List Char :=
  ((cs.dropWhile Char.isWhitespace).reverse.dropWhile Char.isWhitespace).reverse

/-- Python `int(s)` on a string: strip surrounding whitespace, optional
sign, then a nonempty digit run; `none` models the ValueError raised on
anything else (such as an HTTP-date `Retry-After` value). -/
def pyIntOfString (s : String) : Option Int :=
  match pyStripChars s.toList with
  | [] => none
  | '+' :: rest => (pyDigits rest).map Int.ofNat
  | '-' :: rest => (pyDigits rest).map (fun n => -(n : Int))
  | cs => (pyDigits cs).map Int.ofNat

/-! ## The Fetcher: `make_nws_request`

The Python loop
```
max_retries = 3; retry_delay = 5
for attempt in range(max_retries):
    try:
        response = GET(url)
        if response.status_code == 429:
            retry_after = int(response.headers.get(Retry-After, retry_delay))
            sleep(retry_after); continue
        response.raise_for_status()
        return response.json()
    except httpx.HTTPStatusError as e:
        if e.response.status_code == 429: ... ; continue
        return None
    except Exception:
        if attempt < max_retries - 1:
            sleep(retry_delay); continue
        return None
```
is embedded as structural recursion on the remaining attempt budget.
The scripted outcome of attempt `i` is `env i`; sleeps performed by the
loop are accumulated in order.  `raise_for_status` raises HTTPStatusError
exactly on non-2xx status codes (httpx `is_success`); since the explicit
`status_code == 429` check precedes it, the 429 arm of the
HTTPStatusError handler is unreachable and the handler always returns
None.  A 2xx body that fails JSON decoding raises and lands in the
generic handler, like any transport fault. -/

/-- The scripted outcome of one GET attempt: either a response (status
code, optional `Retry-After` header value, and `some` decoded body when
the body parses as JSON, `none` when `response.json()` would raise), or a
network-level exception (timeout, connection error, transport fault). -/
inductive Attempt where
  | response (code : Nat) (retryAfter : Option String) (body : Option Json)
  | netErr

/-- What a whole `make_nws_request` call did: its return value, the
backoff sleeps performed inside the retry loop (in order), and how many
GET attempts were issued. -/
structure FetchTrace where
  result : Option Json
  sleeps : List Int
  attempts : Nat

/-- `max_retries = 3` in `make_nws_request`. -/
def max_retries : Nat := 3

/-- `retry_delay = 5` (seconds) in `make_nws_request`. -/
def retry_delay : Int := 5

/-- One unrolling of the retry loop: `fuel` is the number of loop
iterations still available (`max_retries - made`), `made` the number of
attempts already issued, `sleeps` the backoff sleeps so far.  Falling off
the loop returns None implicitly. -/
def fetchGo (env : Nat → Attempt) : Nat → Nat → List Int → FetchTrace
  | 0, made, sleeps => ⟨none, sleeps, made⟩
  | fuel + 1, made, sleeps =>
    match env made with
    | .response code ra body =>
      if code = 429 then
        -- retry_after = int(headers.get(Retry-After, retry_delay)); sleep; continue
        match ra with
        | none => fetchGo env fuel (made + 1) (sleeps ++ [retry_delay])
        | some s =>
          match pyIntOfString s with
          | some n => fetchGo env fuel (made + 1) (sleeps ++ [n])
          | none =>
            -- int(...) raises ValueError, caught by the generic handler
            if 0 < fuel then fetchGo env fuel (made + 1) (sleeps ++ [retry_delay])
            else ⟨none, sleeps, made + 1⟩
      else if 200 ≤ code ∧ code < 300 then
        -- raise_for_status passes; return response.json()
        match body with
        | some j => ⟨some j, sleeps, made + 1⟩
        | none =>
          -- JSON decode raises, caught by the generic handler
          if 0 < fuel then fetchGo env fuel (made + 1) (sleeps ++ [retry_delay])
          else ⟨none, sleeps, made + 1⟩
      else
        -- raise_for_status raises HTTPStatusError; status is not 429 here
        ⟨none, sleeps, made + 1⟩
    | .netErr =>
      if 0 < fuel then fetchGo env fuel (made + 1) (sleeps ++ [retry_delay])
      else ⟨none, sleeps, made + 1⟩

/-- `make_nws_request`, as a function of the scripted network outcomes.
(The unconditional random 1-3s pre-request throttle happens before the
loop and is not part of the backoff-sleep trace.) -/
def make_nws_request (env : Nat → Attempt) : FetchTrace :=
  fetchGo env max_retries 0 []

/-! ## Formatters and tool handlers -/

/-- `format_alert(feature)`: `feature[properties]` may raise KeyError;
each field is then read with `.get` and a placeholder default, and
rendered into the f-string. -/
def format_alert (feature : Json) : Except PyError String := do
  let props ← pySubscript feature "properties"
  let ev ← pyDictGet props "event" (.str "未知")
  let area ← pyDictGet props "areaDesc" (.str "未知")
  let sev ← pyDictGet props "severity" (.str "未知")
  let desc ← pyDictGet props "description" (.str "无描述信息")
  let instr ← pyDictGet props "instruction" (.str "无具体指令")
  return "\n事件: " ++ pyStr ev ++ "\n区域: " ++ pyStr area ++ "\n严重性: " ++ pyStr sev
    ++ "\n描述: " ++ pyStr desc ++ "\n指令: " ++ pyStr instr ++ "\n"

/-- The fixed message `get_alerts` returns when the fetch fails or the
document is falsy or lacks `features`. -/
def noAlertDataMsg : String := "无法获取预警信息或未找到相关数据。"

/-- The fixed message `get_alerts` returns when `features` is empty. -/
def noActiveAlertsMsg : String := "该州当前没有生效的天气预警。"

/-- The separator joining formatted entries in both handlers. -/
def sepLine : String := "\n---\n"

/-- `get_alerts(state)`, as a function of the fetch outcome `data`
(`none` is a failed `make_nws_request`). -/
def get_alerts (data : Option Json) : Except PyError String :=
  match data with
  | none => .ok noAlertDataMsg
  | some d =>
    if !d.truthy then .ok noAlertDataMsg
    else do
      let hasFeatures ← pyContains d "features"
      if !hasFeatures then .ok noAlertDataMsg
      else do
        let feats ← pySubscript d "features"
        if !feats.truthy then .ok noActiveAlertsMsg
        else do
          let items ← pyIter feats
          let alerts ← items.mapM format_alert
          return String.intercalate sepLine alerts

/-- One iteration of the `for period in periods[:5]` loop body: six
subscripts (KeyError when a key is absent), rendered into the f-string
in source order. -/
def format_period (period : Json) : Except PyError String := do
  let name ← pySubscript period "name"
  let temp ← pySubscript period "temperature"
  let tunit ← pySubscript period "temperatureUnit"
  let wspeed ← pySubscript period "windSpeed"
  let wdir ← pySubscript period "windDirection"
  let detail ← pySubscript period "detailedForecast"
  return "\n" ++ pyStr name ++ ":\n温度: " ++ pyStr temp ++ "°" ++ pyStr tunit
    ++ "\n风力: " ++ pyStr wspeed ++ " " ++ pyStr wdir
    ++ "\n预报: " ++ pyStr detail ++ "\n"

/-- The fixed message `get_forecast` returns when the grid-point fetch
fails or yields a falsy document. -/
def noPointsMsg : String := "无法获取该地点的预报数据。"

/-- The fixed message `get_forecast` returns when the forecast fetch
fails or yields a falsy document. -/
def noForecastMsg : String := "无法获取详细的预报信息。"

/-- `get_forecast(latitude, longitude)`, as a function of the two fetch
outcomes: `points_data` from the grid-point request and `forecast_data`
from the subsequent forecast-URL request.  The forecast URL is extracted
(possibly raising KeyError) before the second fetch is consulted, as in
the source. -/
def get_forecast (points_data forecast_data : Option Json) : Except PyError String :=
  match points_data with
  | none => .ok noPointsMsg
  | some pd =>
    if !pd.truthy then .ok noPointsMsg
    else do
      let props ← pySubscript pd "properties"
      let _forecast_url ← pySubscript props "forecast"
      match forecast_data with
      | none => .ok noForecastMsg
      | some fd =>
        if !fd.truthy then .ok noForecastMsg
        else do
          let fprops ← pySubscript fd "properties"
          let periods ← pySubscript fprops "periods"
          let firstFive ← pySlice5 periods
          let items ← pyIter firstFive
          let forecasts ← items.mapM format_period
          return String.intercalate sepLine forecasts

/-! ## Sample documents used by witnesses and counterexamples -/

/-- A grid-point document with the shape the NWS points endpoint returns:
`properties.forecast` holds the second-stage URL. -/
def samplePointsDoc : Json :=
  Json.obj [("properties", Json.obj [("forecast",
    Json.str "https://api.weather.gov/gridpoints/TOP/32,81/forecast")])]

/-- A forecast period with all six fields the formatter reads. -/
def samplePeriod : Json :=
  Json.obj [("name", Json.str "Tonight"), ("temperature", Json.num 65),
    ("temperatureUnit", Json.str "F"), ("windSpeed", Json.str "5 mph"),
    ("windDirection", Json.str "NW"), ("detailedForecast", Json.str "Clear skies.")]

/-- The rendering of `samplePeriod` by the forecast loop body. -/
def samplePeriodText : String :=
  "\nTonight:\n温度: 65°F\n风力: 5 mph NW\n预报: Clear skies.\n"

/-! ## Helper lemmas -/

/-- Bind on a successful `Except` computation reduces to the
continuation. -/
theorem ok_bind {α β : Type} (a : α) (f : α → Except PyError β) :
    (Except.ok a : Except PyError α) >>= f = f a := rfl

/-- Bind on a failed `Except` computation short-circuits. -/
theorem error_bind {α β : Type} (e : PyError) (f : α → Except PyError β) :
    (Except.error e : Except PyError α) >>= f = Except.error e := rfl

/-- A successful `mapM` over `Except` yields one output per input. -/
theorem mapM_ok_length {α β : Type} (f : α → Except PyError β) :
    ∀ (l : List α) (r : List β), l.mapM f = Except.ok r → r.length = l.length := by
  intro l
  induction l with
  | nil =>
    intro r h
    rw [List.mapM_nil] at h
    cases h
    rfl
  | cons a t ih =>
    intro r h
    rw [List.mapM_cons] at h
    cases hfa : f a with
    | error e => rw [hfa, error_bind] at h; cases h
    | ok b =>
      rw [hfa, ok_bind] at h
      cases hmt : t.mapM f with
      | error e => rw [hmt, error_bind] at h; cases h
      | ok bs =>
        rw [hmt, ok_bind] at h
        cases h
        simp [ih bs hmt]

/-- The sleeps already recorded on entry to the retry loop are a prefix
of the final sleep trace: the loop only appends sleeps. -/
theorem fetchGo_sleeps_extend (env : Nat → Attempt) :
    ∀ (fuel made : Nat) (sleeps : List Int),
      ∃ t, (fetchGo env fuel made sleeps).sleeps = sleeps ++ t := by
  intro fuel
  induction fuel with
  | zero => intro made sleeps; exact ⟨[], by simp [fetchGo]⟩
  | succ fuel ih =>
    intro made sleeps
    unfold fetchGo
    cases henv : env made with
    | netErr =>
      by_cases hf : 0 < fuel
      · obtain ⟨t, ht⟩ := ih (made + 1) (sleeps ++ [retry_delay])
        exact ⟨retry_delay :: t, by simp [hf, ht]⟩
      · exact ⟨[], by simp [hf]⟩
    | response code ra body =>
      by_cases hc : code = 429
      · cases ra with
        | none =>
          obtain ⟨t, ht⟩ := ih (made + 1) (sleeps ++ [retry_delay])
          exact ⟨retry_delay :: t, by simp [hc, ht]⟩
        | some s =>
          cases hs : pyIntOfString s with
          | some n =>
            obtain ⟨t, ht⟩ := ih (made + 1) (sleeps ++ [n])
            exact ⟨n :: t, by simp [hc, hs, ht]⟩
          | none =>
            by_cases hf : 0 < fuel
            · obtain ⟨t, ht⟩ := ih (made + 1) (sleeps ++ [retry_delay])
              exact ⟨retry_delay :: t, by simp [hc, hs, hf, ht]⟩
            · exact ⟨[], by simp [hc, hs, hf]⟩
      · by_cases h2 : 200 ≤ code ∧ code < 300
        · cases body with
          | some j => exact ⟨[], by simp [hc, h2]⟩
          | none =>
            by_cases hf : 0 < fuel
            · obtain ⟨t, ht⟩ := ih (made + 1) (sleeps ++ [retry_delay])
              exact ⟨retry_delay :: t, by simp [hc, h2, hf, ht]⟩
            · exact ⟨[], by simp [hc, h2, hf]⟩
        · exact ⟨[], by simp [hc, h2]⟩

/-- The retry loop only ever returns `none`, or the decoded body of a
scripted 2xx attempt with a parseable JSON body. -/
theorem fetchGo_result_spec (env : Nat → Attempt) :
    ∀ (fuel made : Nat) (sleeps : List Int),
      (fetchGo env fuel made sleeps).result = none
      ∨ ∃ i code ra j, made ≤ i ∧ i < made + fuel
          ∧ env i = .response code ra (some j)
          ∧ 200 ≤ code ∧ code < 300
          ∧ (fetchGo env fuel made sleeps).result = some j := by
  intro fuel
  induction fuel with
  | zero => intro made sleeps; left; simp [fetchGo]
  | succ fuel ih =>
    intro made sleeps
    unfold fetchGo
    cases henv : env made with
    | netErr =>
      by_cases hf : 0 < fuel
      · rcases ih (made + 1) (sleeps ++ [retry_delay]) with h | ⟨i, c2, r2, j, h1, h2, h3, h4, h5, h6⟩
        · left; simp [hf, h]
        · right; exact ⟨i, c2, r2, j, by omega, by omega, h3, h4, h5, by simp [hf, h6]⟩
      · left; simp [hf]
    | response code ra body =>
      by_cases hc : code = 429
      · cases ra with
        | none =>
          rcases ih (made + 1) (sleeps ++ [retry_delay]) with h | ⟨i, c2, r2, j, h1, h2, h3, h4, h5, h6⟩
          · left; simp [hc, h]
          · right; exact ⟨i, c2, r2, j, by omega, by omega, h3, h4, h5, by simp [hc, h6]⟩
        | some s =>
          cases hs : pyIntOfString s with
          | some n =>
            rcases ih (made + 1) (sleeps ++ [n]) with h | ⟨i, c2, r2, j, h1, h2, h3, h4, h5, h6⟩
            · left; simp [hc, hs, h]
            · right; exact ⟨i, c2, r2, j, by omega, by omega, h3, h4, h5, by simp [hc, hs, h6]⟩
          | none =>
            by_cases hf : 0 < fuel
            · rcases ih (made + 1) (sleeps ++ [retry_delay]) with h | ⟨i, c2, r2, j, h1, h2, h3, h4, h5, h6⟩
              · left; simp [hc, hs, hf, h]
              · right; exact ⟨i, c2, r2, j, by omega, by omega, h3, h4, h5, by simp [hc, hs, hf, h6]⟩
            · left; simp [hc, hs, hf]
      · by_cases h2 : 200 ≤ code ∧ code < 300
        · cases body with
          | some j =>
            right
            exact ⟨made, code, ra, j, le_refl made, by omega, henv, h2.1, h2.2, by simp [hc, h2]⟩
          | none =>
            by_cases hf : 0 < fuel
            · rcases ih (made + 1) (sleeps ++ [retry_delay]) with h | ⟨i, c2, r2, j, hh1, hh2, hh3, hh4, hh5, hh6⟩
              · left; simp [hc, h2, hf, h]
              · right; exact ⟨i, c2, r2, j, by omega, by omega, hh3, hh4, hh5, by simp [hc, h2, hf, hh6]⟩
            · left; simp [hc, h2, hf]
        · left; simp [hc, h2]

/-! ## The claims -/

/-- C1: a response with an HTTP 4xx/5xx status other than 429 makes
`make_nws_request` return None after exactly one attempt, with no retry
and no backoff sleep; moreover, from any intermediate loop state, such a
response ends the loop at once with no further attempt and no added
sleep. -/
theorem c1_non429_error_aborts_immediately (env : Nat → Attempt) (code : Nat)
    (ra : Option String) (body : Option Json)
    (h0 : env 0 = .response code ra body)
    (h4 : 400 ≤ code) (h5 : code ≤ 599) (hn : code ≠ 429) :
    make_nws_request env = ⟨none, [], 1⟩
    ∧ ∀ (fuel made : Nat) (sleeps : List Int) (env2 : Nat → Attempt)
        (c2 : Nat) (r2 : Option String) (b2 : Option Json),
        env2 made = .response c2 r2 b2 → 400 ≤ c2 → c2 ≤ 599 → c2 ≠ 429 →
        fetchGo env2 (fuel + 1) made sleeps = ⟨none, sleeps, made + 1⟩ := by
  constructor
  · have h2 : ¬ (200 ≤ code ∧ code < 300) := by omega
    simp [make_nws_request, max_retries, fetchGo, h0, hn, h2]
  · intro fuel made sleeps env2 c2 r2 b2 henv ha hb hnn
    have h2 : ¬ (200 ≤ c2 ∧ c2 < 300) := by omega
    simp [fetchGo, henv, hnn, h2]

/-- Witness for C1 at a concrete 404 response. -/
theorem c1_witness :
    make_nws_request (fun _ => Attempt.response 404 none none) = ⟨none, [], 1⟩ :=
  (c1_non429_error_aborts_immediately (fun _ => Attempt.response 404 none none)
    404 none none rfl (by omega) (by omega) (by omega)).1

/-- C2: a run of network-level failures shorter than the 3-attempt budget
followed by a 2xx response with a parseable body returns that final
attempt's decoded document (after k+1 attempts); network-level failures
on all 3 attempts return None. -/
theorem c2_transport_failures_then_success (env : Nat → Attempt) (k : Nat)
    (hk : k < max_retries)
    (hfail : ∀ i, i < k → env i = .netErr)
    (code : Nat) (ra : Option String) (j : Json)
    (h2xx : 200 ≤ code ∧ code < 300)
    (hsucc : env k = .response code ra (some j)) :
    ((make_nws_request env).result = some j ∧ (make_nws_request env).attempts = k + 1)
    ∧ ∀ env2 : Nat → Attempt, (∀ i, i < max_retries → env2 i = .netErr) →
        make_nws_request env2 = ⟨none, [retry_delay, retry_delay], 3⟩ := by
  have hc : ¬ code = 429 := by omega
  constructor
  · have hk3 : k < 3 := hk
    interval_cases k
    · simp [make_nws_request, max_retries, fetchGo, hsucc, hc, h2xx.1, h2xx.2]
    · simp [make_nws_request, max_retries, fetchGo, hfail 0 (by omega), hsucc, hc,
        h2xx.1, h2xx.2]
    · simp [make_nws_request, max_retries, fetchGo, hfail 0 (by omega), hfail 1 (by omega),
        hsucc, hc, h2xx.1, h2xx.2]
  · intro env2 h
    have h3 : ∀ i, i < 3 → env2 i = .netErr := h
    simp [make_nws_request, max_retries, fetchGo, h3 0 (by omega), h3 1 (by omega),
      h3 2 (by omega)]

/-- Witness for C2: two network failures followed by a 200 with body. -/
theorem c2_witness :
    (make_nws_request (fun i => if i < 2 then Attempt.netErr
        else Attempt.response 200 none (some (Json.str "ok")))).result
      = some (Json.str "ok") :=
  (c2_transport_failures_then_success (fun i => if i < 2 then Attempt.netErr
      else Attempt.response 200 none (some (Json.str "ok"))) 2 (by decide)
    (fun i hi => by simp [hi]) 200 none (Json.str "ok") ⟨by omega, by omega⟩ (by simp)).1.1

/-- C3: a 429 response whose `Retry-After` header parses to n makes the
loop sleep exactly n and continue with one attempt of the budget
consumed (the run is the loop restarted at attempt 1 with 2 attempts
left and n recorded as the first backoff sleep); when the header is
absent, the sleep is the fixed fallback `retry_delay` (5). -/
theorem c3_rate_limit_sleep (env : Nat → Attempt) (s : String) (n : Int)
    (body : Option Json)
    (h0 : env 0 = .response 429 (some s) body) (hn : pyIntOfString s = some n) :
    (make_nws_request env = fetchGo env (max_retries - 1) 1 [n]
      ∧ ∃ rest, (make_nws_request env).sleeps = n :: rest)
    ∧ ∀ (env2 : Nat → Attempt) (body2 : Option Json),
        env2 0 = .response 429 none body2 →
        make_nws_request env2 = fetchGo env2 (max_retries - 1) 1 [retry_delay]
          ∧ ∃ rest, (make_nws_request env2).sleeps = retry_delay :: rest := by
  constructor
  · have heq : make_nws_request env = fetchGo env 2 1 [n] := by
      simp [make_nws_request, max_retries, fetchGo, h0, hn]
    refine ⟨heq, ?_⟩
    obtain ⟨t, ht⟩ := fetchGo_sleeps_extend env 2 1 [n]
    exact ⟨t, by rw [heq, ht]; rfl⟩
  · intro env2 body2 h2
    have heq : make_nws_request env2 = fetchGo env2 2 1 [retry_delay] := by
      simp [make_nws_request, max_retries, fetchGo, h2]
    refine ⟨heq, ?_⟩
    obtain ⟨t, ht⟩ := fetchGo_sleeps_extend env2 2 1 [retry_delay]
    exact ⟨t, by rw [heq, ht]; rfl⟩

/-- Witness for C3: a 429 with `Retry-After: 7` sleeps 7 and continues at
attempt 1 with 2 attempts of budget left. -/
theorem c3_witness :
    make_nws_request (fun i => if i = 0 then Attempt.response 429 (some "7") none
        else Attempt.response 200 none (some Json.null))
      = fetchGo (fun i => if i = 0 then Attempt.response 429 (some "7") none
        else Attempt.response 200 none (some Json.null)) (max_retries - 1) 1 [7] :=
  (c3_rate_limit_sleep _ "7" 7 none rfl rfl).1.1

/-- C4 counterexample: a truthy grid-point document lacking
`properties.forecast` makes `get_forecast` raise KeyError instead of
returning a descriptive "no data" string, refuting the claim that a
fetched document with a missing expected field is reported as a string. -/
theorem c4_counterexample :
    get_forecast (some (Json.obj [("properties", Json.obj [])])) none
      = Except.error (PyError.keyError "forecast") := rfl

/-- C4 amended: failure of each of the two sequential fetch stages
short-circuits with that stage's specific "unavailable" message; but a
fetched document lacking an expected field is not reported as a string:
a grid-point document missing `properties.forecast` raises KeyError, as
does a forecast document missing `properties.periods`. -/
theorem c4_amended_stage_messages_but_keyerror :
    (∀ fd, get_forecast none fd = Except.ok noPointsMsg)
    ∧ get_forecast (some samplePointsDoc) none = Except.ok noForecastMsg
    ∧ get_forecast (some (Json.obj [("properties", Json.obj [])])) none
        = Except.error (PyError.keyError "forecast")
    ∧ get_forecast (some samplePointsDoc) (some (Json.obj [("properties", Json.obj [])]))
        = Except.error (PyError.keyError "periods") :=
  ⟨fun _ => rfl, rfl, rfl, rfl⟩

/-- C5 counterexample: a record lacking the `properties` key makes
`format_alert` raise KeyError, refuting the claim that it is a total
function with no failure mode on every input record. -/
theorem c5_counterexample :
    format_alert (Json.obj []) = Except.error (PyError.keyError "properties") := rfl

/-- C5 amended: on every record whose `properties` key holds a dict,
`format_alert` never raises, and each absent field inside `properties`
is replaced by its documented placeholder (未知 / 无描述信息 / 无具体指令);
in particular a record missing `description` yields the placeholder.
A record lacking `properties` itself, however, raises KeyError. -/
theorem c5_amended_placeholders (props fs : List (String × Json)) :
    (∃ s, format_alert (Json.obj (("properties", Json.obj props) :: fs)) = Except.ok s)
    ∧ format_alert (Json.obj [("properties", Json.obj [("event", Json.str "Flood Warning"),
        ("areaDesc", Json.str "Some County"), ("severity", Json.str "Severe")])])
      = Except.ok "\n事件: Flood Warning\n区域: Some County\n严重性: Severe\n描述: 无描述信息\n指令: 无具体指令\n"
    ∧ format_alert (Json.obj [("properties", Json.obj [])])
      = Except.ok "\n事件: 未知\n区域: 未知\n严重性: 未知\n描述: 无描述信息\n指令: 无具体指令\n" :=
  ⟨⟨_, rfl⟩, rfl, rfl⟩

/-- C6: `get_alerts` returns the fixed "no data" message when the fetch
fails or the document (empty, or any nonempty dict without a `features`
key) lacks `features`; the fixed "no active alerts" message when
`features` is present but empty; and otherwise the features formatted by
`format_alert` in upstream order, joined by the separator line. -/
theorem c6_get_alerts_messages (extra : List (String × Json)) (feats : List Json)
    (hextra : "features" ∉ extra.map Prod.fst) (hne : extra ≠ []) (hfne : feats ≠ []) :
    get_alerts none = Except.ok noAlertDataMsg
    ∧ get_alerts (some (Json.obj [])) = Except.ok noAlertDataMsg
    ∧ get_alerts (some (Json.obj extra)) = Except.ok noAlertDataMsg
    ∧ get_alerts (some (Json.obj [("features", Json.arr [])])) = Except.ok noActiveAlertsMsg
    ∧ get_alerts (some (Json.obj [("features", Json.arr feats)]))
        = (feats.mapM format_alert).map (String.intercalate sepLine) := by
  refine ⟨rfl, rfl, ?_, rfl, ?_⟩
  · have htr : (Json.obj extra).truthy = true := by
      rcases extra with _ | ⟨p, t⟩
      · exact absurd rfl hne
      · rfl
    have hany : extra.any (fun p => p.1 == "features") = false := by
      rw [List.any_eq_false]
      intro p hp hq
      exact hextra (eq_of_beq hq ▸ List.mem_map_of_mem Prod.fst hp)
    have hcon : pyContains (Json.obj extra) "features"
        = Except.ok (extra.any (fun p => p.1 == "features")) := rfl
    rw [hany] at hcon
    simp [get_alerts, htr, hcon, ok_bind]
  · rcases feats with _ | ⟨x, t⟩
    · exact absurd rfl hfne
    · have hstep : get_alerts (some (Json.obj [("features", Json.arr (x :: t))]))
          = ((x :: t).mapM format_alert) >>= fun alerts =>
              Except.ok (String.intercalate sepLine alerts) := rfl
      rw [hstep]
      cases (x :: t).mapM format_alert <;> rfl

/-- Witness for C6: a document with one alert feature yields that
feature's formatting. -/
theorem c6_witness :
    get_alerts (some (Json.obj [("features",
        Json.arr [Json.obj [("properties", Json.obj [])]])]))
      = Except.ok "\n事件: 未知\n区域: 未知\n严重性: 未知\n描述: 无描述信息\n指令: 无具体指令\n" := by
  have h := (c6_get_alerts_messages [("other", Json.null)]
      [Json.obj [("properties", Json.obj [])]]
      (by decide) (List.cons_ne_nil _ _) (List.cons_ne_nil _ _)).2.2.2.2
  rw [h]
  rfl

/-- C7: `get_forecast` renders exactly the first 5 periods (all of them
when fewer), each independently in upstream order: the output equals the
periods list truncated to 5 and mapped through the loop body, so a
successful rendering has min 5 (length periods) entries; an empty
periods list yields an empty output. -/
theorem c7_forecast_first_five (periods : List Json) (rendered : List String)
    (h : (periods.take 5).mapM format_period = Except.ok rendered) :
    (get_forecast (some samplePointsDoc)
        (some (Json.obj [("properties", Json.obj [("periods", Json.arr periods)])]))
      = Except.ok (String.intercalate sepLine rendered))
    ∧ rendered.length = min 5 periods.length
    ∧ get_forecast (some samplePointsDoc)
        (some (Json.obj [("properties", Json.obj [("periods", Json.arr [])])]))
      = Except.ok "" := by
  refine ⟨?_, ?_, rfl⟩
  · have hstep : get_forecast (some samplePointsDoc)
        (some (Json.obj [("properties", Json.obj [("periods", Json.arr periods)])]))
        = ((periods.take 5).mapM format_period) >>= fun fs =>
            Except.ok (String.intercalate sepLine fs) := rfl
    rw [hstep, h, ok_bind]
  · rw [mapM_ok_length format_period (periods.take 5) rendered h, List.length_take]

/-- Witness for C7: a periods list of length 8 yields exactly the first 5
formatted entries. -/
theorem c7_witness :
    get_forecast (some samplePointsDoc)
        (some (Json.obj [("properties", Json.obj [("periods",
            Json.arr (List.replicate 8 samplePeriod))])]))
      = Except.ok (String.intercalate sepLine (List.replicate 5 samplePeriodText)) :=
  (c7_forecast_first_five (List.replicate 8 samplePeriod)
    (List.replicate 5 samplePeriodText) (by rfl)).1

/-- C8: every `make_nws_request` call either returns None or the decoded
document of some scripted 2xx attempt whose body parsed; a 2xx response
whose body fails to parse can never surface as a success. -/
theorem c8_success_only_from_parseable_2xx (env : Nat → Attempt) :
    (make_nws_request env).result = none
    ∨ ∃ i code ra j, i < max_retries ∧ env i = .response code ra (some j)
        ∧ 200 ≤ code ∧ code < 300 ∧ (make_nws_request env).result = some j := by
  rcases fetchGo_result_spec env max_retries 0 [] with h | ⟨i, code, ra, j, _, h2, h3, h4, h5, h6⟩
  · left; exact h
  · right; exact ⟨i, code, ra, j, by omega, h3, h4, h5, h6⟩

/-- C9: a successful fetch whose decoded document is falsy is
indistinguishable at the tool interface from a failed fetch: `get_alerts`
and both stages of `get_forecast` behave exactly as on None. -/
theorem c9_falsy_document_indistinguishable (d : Json) (hd : d.truthy = false) :
    get_alerts (some d) = get_alerts none
    ∧ (∀ fd, get_forecast (some d) fd = get_forecast none fd)
    ∧ (∀ pd, get_forecast pd (some d) = get_forecast pd none) := by
  refine ⟨?_, ?_, ?_⟩
  · simp [get_alerts, hd]
  · intro fd; simp [get_forecast, hd]
  · intro pd
    cases pd with
    | none => rfl
    | some p =>
      cases hp : p.truthy with
      | false => simp [get_forecast, hp]
      | true =>
        simp only [get_forecast, hp, Bool.not_true, Bool.false_eq_true, if_false]
        cases h1 : pySubscript p "properties" with
        | error e => simp [h1, error_bind]
        | ok props =>
          cases h2 : pySubscript props "forecast" with
          | error e => simp [h1, h2, ok_bind, error_bind]
          | ok u => simp [h1, h2, ok_bind, hd]

/-- Witness for C9 at the empty JSON object. -/
theorem c9_witness : get_alerts (some (Json.obj [])) = get_alerts none :=
  (c9_falsy_document_indistinguishable (Json.obj []) rfl).1

/-- C10: a 429 whose `Retry-After` value is not a decimal integer string
is not treated as rate limiting: the int conversion raises, the attempt
is handled by the generic exception handler, and the loop retries after
the fixed fallback delay — or returns None with no further sleep when it
was the final attempt. -/
theorem c10_malformed_retry_after (env : Nat → Attempt) (s : String) (body : Option Json)
    (h0 : env 0 = .response 429 (some s) body)
    (hbad : pyIntOfString s = none) :
    make_nws_request env = fetchGo env (max_retries - 1) 1 [retry_delay]
    ∧ ∀ (env2 : Nat → Attempt) (s2 : String) (body2 : Option Json),
        (∀ i, i < 2 → env2 i = .netErr) →
        env2 2 = .response 429 (some s2) body2 →
        pyIntOfString s2 = none →
        make_nws_request env2 = ⟨none, [retry_delay, retry_delay], 3⟩ := by
  constructor
  · simp [make_nws_request, max_retries, fetchGo, h0, hbad]
  · intro env2 s2 body2 hf h2 hbad2
    simp [make_nws_request, max_retries, fetchGo, hf 0 (by omega), hf 1 (by omega), h2, hbad2]

/-- Witness for C10: an HTTP-date `Retry-After` falls back to the fixed
delay and a retry. -/
theorem c10_witness :
    make_nws_request (fun _ => Attempt.response 429
        (some "Wed, 21 Oct 2015 07:28:00 GMT") none)
      = fetchGo (fun _ => Attempt.response 429
          (some "Wed, 21 Oct 2015 07:28:00 GMT") none) (max_retries - 1) 1 [retry_delay] :=
  (c10_malformed_retry_after _ "Wed, 21 Oct 2015 07:28:00 GMT" none rfl rfl).1

end Weather
